import Mathlib

/-!
Verification of the MAAS power-control orchestration layer.

Part 1 embeds the dispatcher `power_node` and its two wrappers
`power_on_node` / `power_off_node` from
`src/maasserver/clusterrpc/power.py`.

Part 2 embeds the power-type catalog operations
(`get_power_type_parameters_from_json`, `add_power_type_parameters`).
The module `maasserver/clusterrpc/power_parameters.py` itself is not part
of the source sample (only its test suite is), so those operations are
modelled from the specification, guided by the observable behaviour fixed
by `tests/test_power_parameters.py`.
-/

namespace Maas

/-- The `amp.Command` values the dispatch code is specialised to
(`PowerOn`, `PowerOff` imported from `provisioningserver.rpc.cluster`). -/
inductive Command
  | PowerOn
  | PowerOff
deriving DecidableEq, Repr

/-- The power information passed to `power_node`: the node's power type
and its power parameters (`power_info.power_type`,
`power_info.power_parameters` in `power.py` lines 58-59). -/
structure PowerInfo where
  power_type : String
  power_parameters : List (String × String)
deriving DecidableEq, Repr

/-- One remote procedure call as issued by `call_power_command`
(`power.py` lines 52-53, 56-59): the command together with the keyword
arguments `system_id`, `hostname`, `power_type` and `context`. -/
structure RpcCall where
  command : Command
  system_id : String
  hostname : String
  power_type : String
  context : List (String × String)
deriving DecidableEq, Repr

/-- The faults the remote side may report back through the deferred: the
comment in `power.py` lines 61-70 names `UnknownPowerType` and
`NotImplementedError`; any other driver-raised error is an arbitrary
remote fault carrying its message. -/
inductive RemoteFault
  | UnknownPowerType (msg : String)
  | NotImplementedError (msg : String)
  | OtherFault (msg : String)
deriving DecidableEq, Repr

/-- What the remote call's deferred eventually fires with: a clean return
or a fault. -/
inductive RemoteReply
  | clean
  | fault (f : RemoteFault)
deriving DecidableEq, Repr

/-- Observable events of one run of `power_node`, in program order:
the debug log line (`power.py` line 55), the `getClientFor` resolution
attempt (line 56), and the remote call issued by the `addCallback`
callback (lines 56-59). -/
inductive Event
  | logged (msg : String)
  | resolveAttempt (cluster_uuid : String)
  | rpcIssued (call : RpcCall)
deriving DecidableEq, Repr

/-- How the deferred returned by `power_node` completes: with the failure
of `getClientFor` (no connection for the cluster), or with the forwarded
reply of the remote call that was issued. -/
inductive DispatchResult
  | connectionUnavailable
  | issued (call : RpcCall) (reply : RemoteReply)
deriving DecidableEq, Repr

/-- One run of `power_node`: the timeout installed by the
`@asynchronous(timeout=15)` decorator (`power.py` line 34), the event
trace, and the completion of the returned deferred. -/
structure Dispatch where
  timeout : Nat
  trace : List Event
  result : DispatchResult
deriving DecidableEq, Repr

/-- The ambient collaborators of `power_node`: `getClientFor` resolves a
cluster UUID to a client (`none` models its `NoConnectionsAvailable`
failure), and `remote` gives the reply the resolved client produces for a
call. Clients are identified by strings. -/
structure Env where
  clients : String → Option String
  remote : String → RpcCall → RemoteReply

/-- Shallow embedding of `power_node` (`power.py` lines 34-71).
It logs the fixed debug message, resolves the client for `cluster_uuid`
via `getClientFor`, and on success issues the command with
`system_id`, `hostname`, `power_type` and `context` keyword arguments;
the resulting deferred is returned to the caller unchanged. The decorator
`@asynchronous(timeout=15)` fixes the timeout at 15. -/
def power_node (env : Env) (command : Command)
    (system_id hostname cluster_uuid : String)
    (power_info : PowerInfo) : Dispatch :=
  let logMsg := hostname ++ ": Asking cluster to power on node."
  match env.clients cluster_uuid with
  | none =>
      { timeout := 15
        trace := [.logged logMsg, .resolveAttempt cluster_uuid]
        result := .connectionUnavailable }
  | some client =>
      let call : RpcCall :=
        { command := command
          system_id := system_id
          hostname := hostname
          power_type := power_info.power_type
          context := power_info.power_parameters }
      { timeout := 15
        trace := [.logged logMsg, .resolveAttempt cluster_uuid,
                  .rpcIssued call]
        result := .issued call (env.remote client call) }

/-- `power_off_node = partial(power_node, PowerOff)` (`power.py` line 74). -/
def power_off_node (env : Env) :
    String → String → String → PowerInfo → Dispatch :=
  power_node env Command.PowerOff

/-- `power_on_node = partial(power_node, PowerOn)` (`power.py` line 75). -/
def power_on_node (env : Env) :
    String → String → String → PowerInfo → Dispatch :=
  power_node env Command.PowerOn

/-- The typed outcome taxonomy of the specification (§3 Power Outcome). -/
inductive Outcome
  | Success
  | UnknownPowerType (detail : String)
  | Unsupported (detail : String)
  | ConnectionUnavailable
  | RemoteFailure (detail : String)
deriving DecidableEq, Repr

/-- The outcome the caller observes from a forwarded remote reply: the
deferred is returned unchanged (`power.py` lines 61-71), so a clean
return is a success and each fault surfaces as the exception class the
remote raised, message intact. -/
def outcomeOfReply : RemoteReply → Outcome
  | .clean => .Success
  | .fault (.UnknownPowerType m) => .UnknownPowerType m
  | .fault (.NotImplementedError m) => .Unsupported m
  | .fault (.OtherFault m) => .RemoteFailure m

/-- The outcome the immediate caller of `power_node` observes from the
returned deferred. -/
def callerOutcome : DispatchResult → Outcome
  | .connectionUnavailable => .ConnectionUnavailable
  | .issued _ reply => outcomeOfReply reply

/-- The remote calls actually issued during one run, read off the trace. -/
def issuedCalls (d : Dispatch) : List RpcCall :=
  d.trace.filterMap fun e =>
    match e with
    | .rpcIssued call => some call
    | _ => none

/-!
Part 2: the power-type catalog. The raw input is untrusted JSON-like
documents reported by remote controllers, so we model a small JSON value
type and the structural schema checks of spec §6 over it.
-/

/-- Untrusted JSON-like documents: strings, booleans, arrays, objects. -/
inductive JsonValue
  | str (s : String)
  | bool (b : Bool)
  | arr (xs : List JsonValue)
  | obj (kvs : List (String × JsonValue))

/-- Key lookup in a JSON object's key/value list (first match). -/
def lookupKey : List (String × JsonValue) → String → Option JsonValue
  | [], _ => none
  | (k', v) :: rest, k => if k' = k then some v else lookupKey rest k

/-- Is this JSON value a string? -/
def isStr : JsonValue → Bool
  | .str _ => true
  | _ => false

/-- Is this JSON value a boolean? -/
def isBool : JsonValue → Bool
  | .bool _ => true
  | _ => false

/-- A choice entry must be a two-element array `[value, label]` of
strings (spec §6 `FieldDoc.choices`). -/
def isChoicePair : JsonValue → Bool
  | .arr [.str _, .str _] => true
  | _ => false

/-- Modelled from the spec: the field schema of §6
(`POWER_TYPE_PARAMETER_FIELD_SCHEMA`; the module defining it is not in
the source sample). Required keys `name`, `label`, `field_type` of type
string and `required` of type bool; optional `choices` (a list of
string pairs, default `[]`) and `default` (a string, default `""`).
Validation is structural only. -/
def validFieldDoc : JsonValue → Bool
  | .obj kvs =>
      (match lookupKey kvs "name" with
       | some v => isStr v
       | none => false) &&
      (match lookupKey kvs "label" with
       | some v => isStr v
       | none => false) &&
      (match lookupKey kvs "field_type" with
       | some v => isStr v
       | none => false) &&
      (match lookupKey kvs "required" with
       | some v => isBool v
       | none => false) &&
      (match lookupKey kvs "choices" with
       | some (.arr cs) => cs.all isChoicePair
       | some _ => false
       | none => true) &&
      (match lookupKey kvs "default" with
       | some v => isStr v
       | none => true)
  | _ => false

/-- Modelled from the spec: the per-entry part of the catalog schema of
§6 (`TypeDoc`): required keys `name` and `description` of type string,
and `fields`, an array every element of which satisfies the field
schema. -/
def validTypeDoc : JsonValue → Bool
  | .obj kvs =>
      (match lookupKey kvs "name" with
       | some v => isStr v
       | none => false) &&
      (match lookupKey kvs "description" with
       | some v => isStr v
       | none => false) &&
      (match lookupKey kvs "fields" with
       | some (.arr fs) => fs.all validFieldDoc
       | _ => false)
  | _ => false

/-- Modelled from the spec: the catalog schema of §6
(`JSON_POWER_TYPE_SCHEMA`): a list of type documents, each valid. -/
def validCatalogDoc (docs : List JsonValue) : Bool :=
  docs.all validTypeDoc

/-- String value of a key, with a default for absent or non-string. -/
def getString (kvs : List (String × JsonValue)) (k : String) : String :=
  match lookupKey kvs k with
  | some (.str s) => s
  | _ => ""

/-- Boolean value of a key, defaulting to `false`. -/
def getBool (kvs : List (String × JsonValue)) (k : String) : Bool :=
  match lookupKey kvs k with
  | some (.bool b) => b
  | _ => false

/-- The `name` of a type document (empty for malformed documents). -/
def docName : JsonValue → String
  | .obj kvs => getString kvs "name"
  | _ => ""

/-- The `fields` array of a type document. -/
def docFields : JsonValue → List JsonValue
  | .obj kvs =>
      match lookupKey kvs "fields" with
      | some (.arr fs) => fs
      | _ => []
  | _ => []

/-- The typed Field Descriptor of spec §3: name, label, kind, choices,
default, required. -/
structure FieldDescr where
  name : String
  label : String
  field_type : String
  choices : List (String × String)
  defaultValue : String
  required : Bool
deriving DecidableEq, Repr

/-- Read one `[value, label]` choice pair out of a validated choice
document. -/
def parseChoice : JsonValue → Option (String × String)
  | .arr [.str v, .str l] => some (v, l)
  | _ => none

/-- Convert a validated field document into a Field Descriptor
(spec §4.1 / §4.2 step 2). -/
def parseFieldDoc : JsonValue → FieldDescr
  | .obj kvs =>
      { name := getString kvs "name"
        label := getString kvs "label"
        field_type := getString kvs "field_type"
        choices :=
          (match lookupKey kvs "choices" with
           | some (.arr cs) => cs.filterMap parseChoice
           | _ => [])
        defaultValue := getString kvs "default"
        required := getBool kvs "required" }
  | _ =>
      { name := "", label := "", field_type := ""
        choices := [], defaultValue := "", required := false }

/-- A catalog: an association list from power-type name to its ordered
field descriptors (first binding wins on lookup). -/
abbrev Catalog := List (String × List FieldDescr)

/-- Lookup in a catalog by power-type name (first match). -/
def catalogLookup : Catalog → String → Option (List FieldDescr)
  | [], _ => none
  | (k', v) :: rest, k => if k' = k then some v else catalogLookup rest k

/-- The names (key list) of a catalog. -/
def catalogNames (c : Catalog) : List String :=
  c.map Prod.fst

/-- The error taxonomy of catalog construction (spec §7). -/
inductive CatalogError
  | SchemaValidationError
deriving DecidableEq, Repr

/-- One power-type entry assembled from a validated document. -/
def parseTypeEntry (d : JsonValue) : String × List FieldDescr :=
  (docName d, (docFields d).map parseFieldDoc)

/-- Modelled from the spec: `get_power_type_parameters_from_json`
(§4.2 `build_catalog_from_documents`; the module
`maasserver/clusterrpc/power_parameters.py` defining it is not in the
source sample). The whole input sequence is validated against the
catalog schema in one pass — any invalid entry fails the call with
`SchemaValidationError` and no partial catalog is returned; otherwise
the catalog always starts with the implicit empty-name entry with an
empty field list, followed by one entry per input document. -/
def get_power_type_parameters_from_json (docs : List JsonValue) :
    Except CatalogError Catalog :=
  if validCatalogDoc docs then
    .ok (("", []) :: docs.map parseTypeEntry)
  else
    .error .SchemaValidationError

/-- The raw type document a successful registry merge appends. -/
def powerTypeEntryDoc (name description : String)
    (fields : List JsonValue) : JsonValue :=
  .obj [("name", .str name), ("description", .str description),
        ("fields", .arr fields)]

/-- Modelled from the spec: `add_power_type_parameters`
(§4.3 Catalog Registry merge; the defining module
`maasserver/clusterrpc/power_parameters.py` is not in the source
sample). The registry `parameters_set` is the list of raw type documents
so far. If `name` is already present the call is a no-op; otherwise the
supplied fields are validated against the field schema, the new entry
(built by `powerTypeEntryDoc`) is appended, and the entire resulting
registry is re-validated against the catalog schema before committing —
on any validation failure the registry is left unchanged. -/
def add_power_type_parameters (name description : String)
    (fields : List JsonValue) (parameters_set : List JsonValue) :
    Except CatalogError (List JsonValue) :=
  if parameters_set.any (fun d => docName d = name) then
    .ok parameters_set
  else if fields.all validFieldDoc then
    if validCatalogDoc
        (parameters_set ++ [powerTypeEntryDoc name description fields]) then
      .ok (parameters_set ++ [powerTypeEntryDoc name description fields])
    else .error .SchemaValidationError
  else .error .SchemaValidationError

/-- The registry the caller holds after a call to
`add_power_type_parameters`: the committed registry on success, the old
registry verbatim when the call failed (atomicity, spec §4.3). -/
def registryAfter (name description : String) (fields : List JsonValue)
    (parameters_set : List JsonValue) : List JsonValue :=
  match add_power_type_parameters name description fields parameters_set with
  | .ok r => r
  | .error _ => parameters_set

/-! Theorems. -/

/-- Helper: the timeout of every `power_node` dispatch is the constant 15
installed by the decorator. -/
theorem power_node_timeout (env : Env) (c : Command) (s h u : String)
    (p : PowerInfo) : (power_node env c s h u p).timeout = 15 := by
  cases henv : env.clients u <;> simp [power_node, henv]

/-- C1: for every dispatch that reaches remote completion, the caller
observes the remote reply mapped to the typed Outcome taxonomy: a clean
return gives `Success`, a remote `UnknownPowerType` fault gives
`UnknownPowerType`, a remote `NotImplementedError` gives `Unsupported`,
any other remote fault gives `RemoteFailure` carrying the remote message
as detail, and no fault is ever mapped to `Success` (none is
swallowed). -/
theorem power_node_maps_remote_reply_to_outcome (env : Env) (c : Command)
    (s h u : String) (p : PowerInfo) (call : RpcCall) (reply : RemoteReply)
    (hc : (power_node env c s h u p).result = .issued call reply) :
    callerOutcome (power_node env c s h u p).result = outcomeOfReply reply ∧
    (reply = .clean →
      callerOutcome (power_node env c s h u p).result = .Success) ∧
    (∀ m, reply = .fault (.UnknownPowerType m) →
      callerOutcome (power_node env c s h u p).result = .UnknownPowerType m) ∧
    (∀ m, reply = .fault (.NotImplementedError m) →
      callerOutcome (power_node env c s h u p).result = .Unsupported m) ∧
    (∀ m, reply = .fault (.OtherFault m) →
      callerOutcome (power_node env c s h u p).result = .RemoteFailure m) ∧
    (∀ f, reply = .fault f →
      callerOutcome (power_node env c s h u p).result ≠ .Success) := by
  rw [hc]
  refine ⟨rfl, ?_, ?_, ?_, ?_, ?_⟩
  · rintro rfl; rfl
  · rintro m rfl; rfl
  · rintro m rfl; rfl
  · rintro m rfl; rfl
  · rintro f rfl
    cases f <;> simp [callerOutcome, outcomeOfReply]

/-- C1 witness: a concrete dispatch with a resolving client and a clean
remote reply is observed as `Success`. -/
theorem power_node_maps_remote_reply_to_outcome_witness :
    callerOutcome (power_node ⟨fun _ => some "client", fun _ _ => .clean⟩
        Command.PowerOn "sid" "host" "uuid" ⟨"ipmi", []⟩).result =
      Outcome.Success :=
  (power_node_maps_remote_reply_to_outcome
      ⟨fun _ => some "client", fun _ _ => .clean⟩
      Command.PowerOn "sid" "host" "uuid" ⟨"ipmi", []⟩
      ⟨Command.PowerOn, "sid", "host", "ipmi", []⟩ .clean rfl).2.1 rfl

/-- C2 counterexample: the per-call deadline of `power_node` is not
configurable by the caller — no choice of environment or arguments
produces a dispatch whose timeout differs from 15, because the timeout
is baked in by `@asynchronous(timeout=15)` and `power_node` takes no
deadline argument. -/
theorem power_node_deadline_not_configurable :
    ¬ ∃ (env : Env) (c : Command) (s h u : String) (p : PowerInfo),
        (power_node env c s h u p).timeout ≠ 15 := by
  rintro ⟨env, c, s, h, u, p, hne⟩
  exact hne (power_node_timeout env c s h u p)

/-- C2 amended: every dispatch — `power_node` and both derived wrappers —
enforces a deadline of exactly 15 time units, fixed at the definition
site; there is no per-call deadline parameter. -/
theorem power_node_deadline_fixed_at_15 (env : Env) (c : Command)
    (s h u : String) (p : PowerInfo) :
    (power_node env c s h u p).timeout = 15 ∧
    (power_on_node env s h u p).timeout = 15 ∧
    (power_off_node env s h u p).timeout = 15 :=
  ⟨power_node_timeout env c s h u p,
   power_node_timeout env Command.PowerOn s h u p,
   power_node_timeout env Command.PowerOff s h u p⟩

/-- C3: when resolving the connection for the cluster fails, the
operation fails with `ConnectionUnavailable` and no RPC command is
issued to any remote controller. -/
theorem power_node_resolution_failure (env : Env) (c : Command)
    (s h u : String) (p : PowerInfo) (hres : env.clients u = none) :
    callerOutcome (power_node env c s h u p).result =
      Outcome.ConnectionUnavailable ∧
    issuedCalls (power_node env c s h u p) = [] := by
  refine ⟨?_, ?_⟩ <;> simp [power_node, hres, callerOutcome, issuedCalls]

/-- C3 witness: a concrete dispatch against a cluster with no connection
issues no remote call. -/
theorem power_node_resolution_failure_witness :
    issuedCalls (power_node ⟨fun _ => none, fun _ _ => .clean⟩
      Command.PowerOn "sid" "host" "uuid" ⟨"ipmi", []⟩) = [] :=
  (power_node_resolution_failure ⟨fun _ => none, fun _ _ => .clean⟩
      Command.PowerOn "sid" "host" "uuid" ⟨"ipmi", []⟩ rfl).2

/-- C8: when the connection resolves, the dispatcher issues exactly one
RPC call — the command with keyword arguments `system_id`, `hostname`,
`power_type` (from the power information) and `context` (the power
parameters) — over the resolved client, and no other call (so no
retries). -/
theorem power_node_issues_exact_call (env : Env) (c : Command)
    (s h u : String) (p : PowerInfo) (client : String)
    (hres : env.clients u = some client) :
    issuedCalls (power_node env c s h u p) =
      [{ command := c, system_id := s, hostname := h,
         power_type := p.power_type, context := p.power_parameters }] ∧
    (power_node env c s h u p).result =
      .issued
        { command := c, system_id := s, hostname := h,
          power_type := p.power_type, context := p.power_parameters }
        (env.remote client
          { command := c, system_id := s, hostname := h,
            power_type := p.power_type, context := p.power_parameters }) := by
  refine ⟨?_, ?_⟩ <;> simp [power_node, hres, issuedCalls]

/-- C8 witness: a concrete dispatch with a resolving client issues
exactly the one expected call. -/
theorem power_node_issues_exact_call_witness :
    issuedCalls (power_node ⟨fun _ => some "client", fun _ _ => .clean⟩
      Command.PowerOff "sid" "host" "uuid" ⟨"ipmi", [("a", "b")]⟩) =
      [{ command := Command.PowerOff, system_id := "sid", hostname := "host",
         power_type := "ipmi", context := [("a", "b")] }] :=
  (power_node_issues_exact_call ⟨fun _ => some "client", fun _ _ => .clean⟩
      Command.PowerOff "sid" "host" "uuid" ⟨"ipmi", [("a", "b")]⟩
      "client" rfl).1

/-- C9: `power_on_node` and `power_off_node` are exactly `power_node`
with the command fixed to `PowerOn` respectively `PowerOff`, for all
remaining arguments. -/
theorem power_wrappers_are_power_node (env : Env) (s h u : String)
    (p : PowerInfo) :
    power_on_node env s h u p = power_node env Command.PowerOn s h u p ∧
    power_off_node env s h u p = power_node env Command.PowerOff s h u p :=
  ⟨rfl, rfl⟩

/-- C10: for every command, including `PowerOff`, `power_node` first
emits the debug log message "Asking cluster to power on node." prefixed
with the hostname, before the resolution attempt, and the logged text
does not depend on the command. -/
theorem power_node_fixed_log_message (env : Env) (c c' : Command)
    (s h u : String) (p : PowerInfo) :
    (power_node env c s h u p).trace.head? =
      some (.logged (h ++ ": Asking cluster to power on node.")) ∧
    (power_node env c s h u p).trace[1]? = some (.resolveAttempt u) ∧
    (power_node env c s h u p).trace.head? =
      (power_node env c' s h u p).trace.head? := by
  cases henv : env.clients u <;> simp [power_node, henv]

/-- C4: adding a power type whose name is already present in the
registry is a no-op: the registry content is returned unchanged whatever
fields or description are passed, so repeated calls with the same name
are idempotent. -/
theorem add_power_type_parameters_existing_noop (name description : String)
    (fields : List JsonValue) (ps : List JsonValue)
    (h : ps.any (fun d => docName d = name) = true) :
    add_power_type_parameters name description fields ps = .ok ps ∧
    registryAfter name description fields ps = ps := by
  constructor
  · simp [add_power_type_parameters, h]
  · simp [registryAfter, add_power_type_parameters, h]

/-- C4 witness: re-registering the name `blah` with a different field
list leaves the concrete registry of the test suite unchanged. -/
theorem add_power_type_parameters_existing_noop_witness :
    registryAfter "blah" "other description"
      [JsonValue.obj [("name", .str "f"), ("label", .str "F"),
                      ("field_type", .str "string"),
                      ("required", .bool false)]]
      [JsonValue.obj [("name", .str "blah"), ("description", .str "baz"),
                      ("fields", .arr [])]] =
      [JsonValue.obj [("name", .str "blah"), ("description", .str "baz"),
                      ("fields", .arr [])]] :=
  (add_power_type_parameters_existing_noop "blah" "other description"
      [JsonValue.obj [("name", .str "f"), ("label", .str "F"),
                      ("field_type", .str "string"),
                      ("required", .bool false)]]
      [JsonValue.obj [("name", .str "blah"), ("description", .str "baz"),
                      ("fields", .arr [])]] rfl).2

/-- C5: starting from a registry satisfying the catalog schema, every
successful `add_power_type_parameters` leaves a registry that again
validates against the catalog schema, and every failing call leaves the
caller's registry exactly as it was (atomicity). -/
theorem add_power_type_parameters_invariant (name description : String)
    (fields ps : List JsonValue) (hvalid : validCatalogDoc ps = true) :
    (∀ r, add_power_type_parameters name description fields ps = .ok r →
       validCatalogDoc r = true) ∧
    (∀ e, add_power_type_parameters name description fields ps = .error e →
       registryAfter name description fields ps = ps) := by
  constructor
  · intro r hr
    unfold add_power_type_parameters at hr
    split at hr
    · cases hr
      exact hvalid
    · split at hr
      · split at hr
        · cases hr
          assumption
        · cases hr
      · cases hr
  · intro e he
    simp [registryAfter, he]

/-- C5 witness: adding a valid entry to the empty registry. -/
theorem add_power_type_parameters_invariant_witness :
    validCatalogDoc [] = true ∧
    ((∀ r, add_power_type_parameters "blah" "baz"
        [JsonValue.obj [("name", .str "f"), ("label", .str "F"),
                        ("field_type", .str "string"),
                        ("required", .bool false)]] [] = .ok r →
        validCatalogDoc r = true) ∧
     (∀ e, add_power_type_parameters "blah" "baz"
        [JsonValue.obj [("name", .str "f"), ("label", .str "F"),
                        ("field_type", .str "string"),
                        ("required", .bool false)]] [] = .error e →
        registryAfter "blah" "baz"
          [JsonValue.obj [("name", .str "f"), ("label", .str "F"),
                          ("field_type", .str "string"),
                          ("required", .bool false)]] [] = [])) :=
  ⟨rfl, add_power_type_parameters_invariant "blah" "baz"
      [JsonValue.obj [("name", .str "f"), ("label", .str "F"),
                      ("field_type", .str "string"),
                      ("required", .bool false)]] [] rfl⟩

/-- C6: an invalid field document anywhere inside any entry of the input
sequence makes `get_power_type_parameters_from_json` fail the whole call
with `SchemaValidationError`; the error result carries no partial
catalog. -/
theorem get_power_type_parameters_from_json_rejects_invalid_field
    (docs : List JsonValue) (kvs : List (String × JsonValue))
    (fs : List JsonValue) (f : JsonValue)
    (hd : JsonValue.obj kvs ∈ docs)
    (hfs : lookupKey kvs "fields" = some (.arr fs))
    (hf : f ∈ fs) (hbad : validFieldDoc f = false) :
    get_power_type_parameters_from_json docs =
      .error .SchemaValidationError := by
  have hall : fs.all validFieldDoc = false := by
    rw [List.all_eq_false]
    exact ⟨f, hf, by simp [hbad]⟩
  have htd : validTypeDoc (JsonValue.obj kvs) = false := by
    simp only [validTypeDoc, hfs, hall]
    simp
  have hcat : validCatalogDoc docs = false := by
    unfold validCatalogDoc
    rw [List.all_eq_false]
    exact ⟨_, hd, by simp [htd]⟩
  simp [get_power_type_parameters_from_json, hcat]

/-- C6 witness: the test suite's malformed input (an entry whose field
list contains an empty object) is rejected whole. -/
theorem get_power_type_parameters_from_json_rejects_invalid_field_witness :
    get_power_type_parameters_from_json
      [JsonValue.obj [("name", .str "invalid_power_type"),
                      ("description", .str "x"),
                      ("fields", .arr [JsonValue.obj []])]] =
      .error .SchemaValidationError :=
  get_power_type_parameters_from_json_rejects_invalid_field
    [JsonValue.obj [("name", .str "invalid_power_type"),
                    ("description", .str "x"),
                    ("fields", .arr [JsonValue.obj []])]]
    [("name", .str "invalid_power_type"), ("description", .str "x"),
     ("fields", .arr [JsonValue.obj []])]
    [JsonValue.obj []] (JsonValue.obj [])
    (List.Mem.head _) rfl (List.Mem.head _) rfl

/-- C7: for every input sequence that validates against the catalog
schema, the built catalog's key list is exactly the empty name followed
by the input names, the empty-name entry maps to an empty field list,
and the catalog built from the empty input holds exactly the one
empty-name entry. -/
theorem get_power_type_parameters_from_json_keys (docs : List JsonValue)
    (h : validCatalogDoc docs = true) :
    ∃ cat, get_power_type_parameters_from_json docs = .ok cat ∧
      catalogNames cat = "" :: docs.map docName ∧
      catalogLookup cat "" = some [] ∧
      get_power_type_parameters_from_json [] = .ok [("", [])] := by
  refine ⟨("", []) :: docs.map parseTypeEntry, ?_, ?_, ?_, ?_⟩
  · simp [get_power_type_parameters_from_json, h]
  · simp [catalogNames, parseTypeEntry]
  · simp [catalogLookup]
  · rfl

/-- C7 witness: the test suite's one-entry input yields the catalog
keyed by the empty name and `something`. -/
theorem get_power_type_parameters_from_json_keys_witness :
    validCatalogDoc
      [JsonValue.obj [("name", .str "something"),
                      ("description", .str "Meaningless"),
                      ("fields", .arr
                        [JsonValue.obj [("name", .str "some_field"),
                                        ("label", .str "Some Field"),
                                        ("field_type", .str "string"),
                                        ("required", .bool false)]])]] = true ∧
    (∃ cat, get_power_type_parameters_from_json
        [JsonValue.obj [("name", .str "something"),
                        ("description", .str "Meaningless"),
                        ("fields", .arr
                          [JsonValue.obj [("name", .str "some_field"),
                                          ("label", .str "Some Field"),
                                          ("field_type", .str "string"),
                                          ("required", .bool false)]])]] =
          .ok cat ∧
      catalogNames cat =
        "" :: [JsonValue.obj [("name", .str "something"),
                              ("description", .str "Meaningless"),
                              ("fields", .arr
                                [JsonValue.obj [("name", .str "some_field"),
                                                ("label", .str "Some Field"),
                                                ("field_type", .str "string"),
                                                ("required", .bool false)]])]].map
              docName ∧
      catalogLookup cat "" = some [] ∧
      get_power_type_parameters_from_json [] = .ok [("", [])]) :=
  ⟨rfl, get_power_type_parameters_from_json_keys
      [JsonValue.obj [("name", .str "something"),
                      ("description", .str "Meaningless"),
                      ("fields", .arr
                        [JsonValue.obj [("name", .str "some_field"),
                                        ("label", .str "Some Field"),
                                        ("field_type", .str "string"),
                                        ("required", .bool false)]])]] rfl⟩

end Maas
